import Mathlib

/-!
Verification development for the xG27 sensor dashboard firmware.

The firmware (firmware/src/main.c, v1.0.0) reads three I2C sensors every
second and broadcasts a 10-byte BLE manufacturer-data payload.  We embed
the byte-level encoder update_ble, one iteration of the main loop, and the
bridge-side payload codec described in the design document, and prove the
stated wire-format, flag and round-trip properties.

Machine integers are modelled as Nat (unsigned) and Int (signed) with
explicit reductions modulo 2^8 / 2^16 where the C code casts; C integer
division (truncation toward zero, positive divisors only here) is modelled
explicitly.  Intermediate 32-bit int arithmetic is assumed not to overflow,
as in the C source.
-/

/-- The C cast (uint8_t)x applied to a signed integer value: the low 8 bits
of the two's-complement representation. -/
def toUInt8 (x : Int) : Nat := (x % 256).toNat

/-- The C arithmetic right shift x >> 8 on a signed integer value.  For the
positive divisor 256 this is floor division, which Int division (Euclidean)
agrees with. -/
def asr8 (x : Int) : Int := x / 256

/-- The C cast (int16_t)x, modelled as two's-complement wraparound into
[-32768, 32768). -/
def wrap16 (x : Int) : Int := (x + 32768) % 65536 - 32768

/-- C integer division a / b for a positive divisor b: truncation toward
zero. -/
def cdiv (a b : Int) : Int := if 0 ≤ a then a / b else -((-a) / b)

/-- struct sensor_value from the Zephyr sensor API: val1 integer part,
val2 fractional part in millionths, same sign as val1. -/
structure sensor_value where
  val1 : Int
  val2 : Int
deriving DecidableEq

/-- The initial contents of the static buffer mfr_data in main.c v1.0.0:
company id 0xFF 0xFF followed by eight zero bytes. -/
def mfr_data : List Nat := [0xFF, 0xFF, 0, 0, 0, 0, 0, 0, 0, 0]

/-- update_ble from main.c v1.0.0: when BLE is ready, stores the five field
values into bytes 2..9 of the advertisement buffer, multi-byte fields low
byte first; otherwise leaves the buffer unchanged.  temp_cdeg and mag_ut
are int16 values, hum and flags uint8, lux uint16. -/
def update_ble (ble_ready : Bool) (buf : List Nat) (temp_cdeg : Int)
    (hum : Nat) (lux : Nat) (mag_ut : Int) (flags : Nat) : List Nat :=
  if ble_ready then
    ((((((((buf.set 2 (toUInt8 temp_cdeg)).set 3
        (toUInt8 (asr8 temp_cdeg))).set 4 hum).set 5
        (lux % 256)).set 6 (lux / 256)).set 7
        (toUInt8 mag_ut)).set 8 (toUInt8 (asr8 mag_ut))).set 9 flags)
  else
    buf

/-- The expression computing temp_cdeg in main.c before the int16_t cast:
val1 * 100 + (val2 < 0 ? -(-val2 / 10000) : val2 / 10000).  Both branch
divisions have non-negative operands, where C and Euclidean division
agree. -/
def temp_centideg (temp : sensor_value) : Int :=
  temp.val1 * 100 +
    (if temp.val2 < 0 then -((-temp.val2) / 10000) else temp.val2 / 10000)

/-- The outputs of one iteration of the firmware main loop that are passed
to update_ble. -/
structure LoopOut where
  temp_cdeg : Int
  hum_pct : Nat
  lux : Nat
  mag_ut : Int
  flags : Nat
deriving DecidableEq

/-- One iteration of the while loop in main (main.c v1.0.0).  The three
booleans record whether each sensor was ready and its sample fetch
returned 0; temp, hum, light, mag are the fetched channel values.  Each
field starts at 0 and is overwritten only when the matching fetch
succeeded, in which case the flag bit is or-ed in. -/
def loop_iteration (si7021_ok veml6035_ok si7210_ok : Bool)
    (temp hum light mag : sensor_value) : LoopOut :=
  let temp_cdeg : Int := if si7021_ok then wrap16 (temp_centideg temp) else 0
  let hum_pct : Nat := if si7021_ok then (hum.val1 % 256).toNat else 0
  let lux : Nat := if veml6035_ok then (light.val1 % 65536).toNat else 0
  let mag_ut : Int :=
    if si7210_ok then wrap16 (mag.val1 * 100 + cdiv mag.val2 10000) else 0
  let f1 : Nat := if si7021_ok then 0 ||| 1 else 0
  let f2 : Nat := if veml6035_ok then f1 ||| 2 else f1
  let f3 : Nat := if si7210_ok then f2 ||| 4 else f2
  { temp_cdeg := temp_cdeg, hum_pct := hum_pct, lux := lux,
    mag_ut := mag_ut, flags := f3 }

/-- The advertisement bytes produced by one main-loop iteration: main
calls update_ble(temp_cdeg, hum_pct, lux, mag_ut, flags) on the static
buffer, here with BLE ready. -/
def main_loop_advert (si7021_ok veml6035_ok si7210_ok : Bool)
    (temp hum light mag : sensor_value) : List Nat :=
  let out := loop_iteration si7021_ok veml6035_ok si7210_ok temp hum light mag
  update_ble true mfr_data out.temp_cdeg out.hum_pct out.lux out.mag_ut
    out.flags

/-- Little-endian signed 16-bit interpretation of two bytes (low byte
first). -/
def sint16OfLE (lo hi : Nat) : Int :=
  if lo + 256 * hi < 32768 then ((lo : Int) + 256 * hi)
  else ((lo : Int) + 256 * hi) - 65536

/-- Modelled from the spec: the error taxonomy of the bridge-side payload
codec (host decoder source is not in the repository snapshot). -/
inductive DecodeError where
  | BadLength
  | UnrecognizedSource
deriving DecidableEq

/-- Modelled from the spec: the decoded telemetry snapshot of the bridge
(host source absent); received_at is bridge wall-clock time and is left
out of the pure data model. -/
structure Reading where
  temperature_centidegrees : Int
  humidity_percent : Nat
  illuminance_lux : Nat
  magnetic_field_microtesla : Int
  flags : Nat
deriving DecidableEq

deriving instance DecidableEq for Except

/-- Modelled from the spec: decode of the bridge Payload Codec (host
decoder source is not in the repository snapshot).  Following section 4.1,
the fixed 10-byte length is checked first (BadLength otherwise), then the
leading two bytes are compared against the expected constant 0xFFFF
(UnrecognizedSource on mismatch); the fields are the little-endian
interpretations of the byte ranges of section 6. -/
def decode (p : List Nat) : Except DecodeError Reading :=
  match p with
  | [b0, b1, b2, b3, b4, b5, b6, b7, b8, b9] =>
    if b0 + 256 * b1 = 0xFFFF then
      Except.ok
        { temperature_centidegrees := sint16OfLE b2 b3
          humidity_percent := b4
          illuminance_lux := b5 + 256 * b6
          magnetic_field_microtesla := sint16OfLE b7 b8
          flags := b9 }
    else
      Except.error DecodeError.UnrecognizedSource
  | _ => Except.error DecodeError.BadLength

theorem sint16_encode_decode (t : Int) (h1 : -32768 ≤ t) (h2 : t < 32768) :
    sint16OfLE (toUInt8 t) (toUInt8 (asr8 t)) = t := by
  simp only [sint16OfLE, toUInt8, asr8]
  split <;> omega

/-- C1: update_ble (with BLE ready, on the firmware's static buffer)
produces a 10-byte payload whose bytes 0-1 are the identity tag 0xFF 0xFF,
whose bytes 2-3 read little-endian as the temperature, byte 4 as the
humidity, bytes 5-6 little-endian as the illuminance, bytes 7-8
little-endian as the magnetic field, and byte 9 as the flags, for every
int16 temperature and magnetic field, uint8 humidity and flags, and uint16
illuminance. -/
theorem update_ble_wire_layout (t : Int) (h l : Nat) (m : Int) (f : Nat)
    (ht1 : -32768 ≤ t) (ht2 : t < 32768) (hh : h < 256) (hl : l < 65536)
    (hm1 : -32768 ≤ m) (hm2 : m < 32768) (hf : f < 256) :
    (update_ble true mfr_data t h l m f).length = 10 ∧
    (update_ble true mfr_data t h l m f).getD 0 0 = 0xFF ∧
    (update_ble true mfr_data t h l m f).getD 1 0 = 0xFF ∧
    sint16OfLE ((update_ble true mfr_data t h l m f).getD 2 0)
      ((update_ble true mfr_data t h l m f).getD 3 0) = t ∧
    (update_ble true mfr_data t h l m f).getD 4 0 = h ∧
    (update_ble true mfr_data t h l m f).getD 5 0 +
      256 * (update_ble true mfr_data t h l m f).getD 6 0 = l ∧
    sint16OfLE ((update_ble true mfr_data t h l m f).getD 7 0)
      ((update_ble true mfr_data t h l m f).getD 8 0) = m ∧
    (update_ble true mfr_data t h l m f).getD 9 0 = f := by
  refine ⟨rfl, rfl, rfl, sint16_encode_decode t ht1 ht2, rfl, ?_,
    sint16_encode_decode m hm1 hm2, rfl⟩
  show l % 256 + 256 * (l / 256) = l
  omega

theorem update_ble_wire_layout_witness :
    (update_ble true mfr_data (-1) 52 1000 (-2) 7).length = 10 ∧
    (update_ble true mfr_data (-1) 52 1000 (-2) 7).getD 0 0 = 0xFF ∧
    (update_ble true mfr_data (-1) 52 1000 (-2) 7).getD 1 0 = 0xFF ∧
    sint16OfLE ((update_ble true mfr_data (-1) 52 1000 (-2) 7).getD 2 0)
      ((update_ble true mfr_data (-1) 52 1000 (-2) 7).getD 3 0) = -1 ∧
    (update_ble true mfr_data (-1) 52 1000 (-2) 7).getD 4 0 = 52 ∧
    (update_ble true mfr_data (-1) 52 1000 (-2) 7).getD 5 0 +
      256 * (update_ble true mfr_data (-1) 52 1000 (-2) 7).getD 6 0 = 1000 ∧
    sint16OfLE ((update_ble true mfr_data (-1) 52 1000 (-2) 7).getD 7 0)
      ((update_ble true mfr_data (-1) 52 1000 (-2) 7).getD 8 0) = -2 ∧
    (update_ble true mfr_data (-1) 52 1000 (-2) 7).getD 9 0 = 7 :=
  update_ble_wire_layout (-1) 52 1000 (-2) 7 (by decide) (by decide)
    (by decide) (by decide) (by decide) (by decide) (by decide)

/-- C2 counterexample: update_ble applied to (2314, 52, 100, 511, 7) does
not yield the payload FF FF 0A 09 34 00 64 FF 01 07 of the spec scenario;
moreover that payload, read in the little-endian wire layout, carries
illuminance 0x6400 = 25600, not 100 (its bytes 5-6 are 00 64, high byte
last only if read big-endian). -/
theorem scenario_payload_2314_counterexample :
    update_ble true mfr_data 2314 52 100 511 7 ≠
      [0xFF, 0xFF, 0x0A, 0x09, 0x34, 0x00, 0x64, 0xFF, 0x01, 0x07] ∧
    decode [0xFF, 0xFF, 0x0A, 0x09, 0x34, 0x00, 0x64, 0xFF, 0x01, 0x07] =
      Except.ok
        { temperature_centidegrees := 2314, humidity_percent := 52,
          illuminance_lux := 25600, magnetic_field_microtesla := 511,
          flags := 7 } := by
  constructor <;> decide

/-- C2 amended: update_ble applied to (2314, 52, 100, 511, 7) yields
exactly the payload FF FF 0A 09 34 64 00 FF 01 07 (illuminance bytes 64 00,
low byte first), and decoding that payload gives temperature 2314
centi-degrees, humidity 52, illuminance 100, magnetic field 511,
flags 7. -/
theorem scenario_payload_2314 :
    update_ble true mfr_data 2314 52 100 511 7 =
      [0xFF, 0xFF, 0x0A, 0x09, 0x34, 0x64, 0x00, 0xFF, 0x01, 0x07] ∧
    decode [0xFF, 0xFF, 0x0A, 0x09, 0x34, 0x64, 0x00, 0xFF, 0x01, 0x07] =
      Except.ok
        { temperature_centidegrees := 2314, humidity_percent := 52,
          illuminance_lux := 100, magnetic_field_microtesla := 511,
          flags := 7 } := by
  constructor <;> decide

/-- C3: decoding the payload produced by update_ble recovers the encoded
field values, for every in-range field tuple. -/
theorem encode_decode_roundtrip (t : Int) (h l : Nat) (m : Int) (f : Nat)
    (ht1 : -32768 ≤ t) (ht2 : t < 32768) (hh : h < 256) (hl : l < 65536)
    (hm1 : -32768 ≤ m) (hm2 : m < 32768) (hf : f < 256) :
    decode (update_ble true mfr_data t h l m f) =
      Except.ok
        { temperature_centidegrees := t, humidity_percent := h,
          illuminance_lux := l, magnetic_field_microtesla := m,
          flags := f } := by
  have hdec : decode (update_ble true mfr_data t h l m f) =
      Except.ok
        { temperature_centidegrees := sint16OfLE (toUInt8 t) (toUInt8 (asr8 t))
          humidity_percent := h
          illuminance_lux := l % 256 + 256 * (l / 256)
          magnetic_field_microtesla :=
            sint16OfLE (toUInt8 m) (toUInt8 (asr8 m))
          flags := f } := rfl
  rw [hdec]
  simp only [Except.ok.injEq, Reading.mk.injEq]
  refine ⟨sint16_encode_decode t ht1 ht2, trivial, ?_,
    sint16_encode_decode m hm1 hm2, trivial⟩
  omega

theorem encode_decode_roundtrip_witness :
    decode (update_ble true mfr_data (-100) 52 40000 (-511) 5) =
      Except.ok
        { temperature_centidegrees := -100, humidity_percent := 52,
          illuminance_lux := 40000, magnetic_field_microtesla := -511,
          flags := 5 } :=
  encode_decode_roundtrip (-100) 52 40000 (-511) 5 (by decide) (by decide)
    (by decide) (by decide) (by decide) (by decide) (by decide)

theorem decode_badLength (p : List Nat) (hp : p.length ≠ 10) :
    decode p = Except.error DecodeError.BadLength := by
  match p with
  | [] => rfl
  | [a] => rfl
  | [a, b] => rfl
  | [a, b, c] => rfl
  | [a, b, c, d] => rfl
  | [a, b, c, d, e] => rfl
  | [a, b, c, d, e, f] => rfl
  | [a, b, c, d, e, f, g] => rfl
  | [a, b, c, d, e, f, g, i] => rfl
  | [a, b, c, d, e, f, g, i, j] => rfl
  | [a, b, c, d, e, f, g, i, j, k] => exact absurd rfl hp
  | a :: b :: c :: d :: e :: f :: g :: i :: j :: k :: x :: rest => rfl

theorem decode_unrecognized (p : List Nat) (hp : p.length = 10)
    (htag : p.getD 0 0 + 256 * p.getD 1 0 ≠ 0xFFFF) :
    decode p = Except.error DecodeError.UnrecognizedSource := by
  match p with
  | [a, b, c, d, e, f, g, i, j, k] => exact if_neg htag
  | [] => simp at hp
  | [a] => simp at hp
  | [a, b] => simp at hp
  | [a, b, c] => simp at hp
  | [a, b, c, d] => simp at hp
  | [a, b, c, d, e] => simp at hp
  | [a, b, c, d, e, f] => simp at hp
  | [a, b, c, d, e, f, g] => simp at hp
  | [a, b, c, d, e, f, g, i] => simp at hp
  | [a, b, c, d, e, f, g, i, j] => simp at hp
  | a :: b :: c :: d :: e :: f :: g :: i :: j :: k :: x :: rest =>
    simp only [List.length_cons] at hp
    omega

theorem decode_ok_of_tag (p : List Nat) (hp : p.length = 10)
    (htag : p.getD 0 0 + 256 * p.getD 1 0 = 0xFFFF) :
    ∃ r, decode p = Except.ok r := by
  match p with
  | [a, b, c, d, e, f, g, i, j, k] =>
    exact ⟨{ temperature_centidegrees := sint16OfLE c d, humidity_percent := e,
             illuminance_lux := f + 256 * g,
             magnetic_field_microtesla := sint16OfLE i j, flags := k },
           if_pos htag⟩
  | [] => simp at hp
  | [a] => simp at hp
  | [a, b] => simp at hp
  | [a, b, c] => simp at hp
  | [a, b, c, d] => simp at hp
  | [a, b, c, d, e] => simp at hp
  | [a, b, c, d, e, f] => simp at hp
  | [a, b, c, d, e, f, g] => simp at hp
  | [a, b, c, d, e, f, g, i] => simp at hp
  | [a, b, c, d, e, f, g, i, j] => simp at hp
  | a :: b :: c :: d :: e :: f :: g :: i :: j :: k :: x :: rest =>
    simp only [List.length_cons] at hp
    omega

/-- C4 counterexample: a 2-byte payload whose leading tag bytes differ
from 0xFF 0xFF fails with BadLength, not with UnrecognizedSource as the
claim requires for mismatched tags of any length. -/
theorem decode_taxonomy_counterexample :
    decode [0, 0] = Except.error DecodeError.BadLength ∧
    decode [0, 0] ≠ Except.error DecodeError.UnrecognizedSource := by
  constructor <;> decide

/-- C4 amended: decode fails with BadLength for every input whose length
differs from 10, regardless of its tag bytes; it fails with
UnrecognizedSource for every 10-byte payload whose leading 2-byte
little-endian identity tag differs from 0xFFFF; and it succeeds on every
10-byte payload with the correct tag. -/
theorem decode_error_taxonomy :
    (∀ p : List Nat, p.length ≠ 10 →
        decode p = Except.error DecodeError.BadLength) ∧
    (∀ p : List Nat, p.length = 10 →
        p.getD 0 0 + 256 * p.getD 1 0 ≠ 0xFFFF →
        decode p = Except.error DecodeError.UnrecognizedSource) ∧
    (∀ p : List Nat, p.length = 10 →
        p.getD 0 0 + 256 * p.getD 1 0 = 0xFFFF →
        ∃ r, decode p = Except.ok r) :=
  ⟨decode_badLength, decode_unrecognized, decode_ok_of_tag⟩

theorem decode_error_taxonomy_witness :
    decode [1, 2, 3] = Except.error DecodeError.BadLength ∧
    decode [0, 0, 0, 0, 0, 0, 0, 0, 0, 0] =
      Except.error DecodeError.UnrecognizedSource ∧
    ∃ r, decode [255, 255, 1, 2, 3, 4, 5, 6, 7, 8] = Except.ok r :=
  ⟨decode_error_taxonomy.1 [1, 2, 3] (by decide),
   decode_error_taxonomy.2.1 [0, 0, 0, 0, 0, 0, 0, 0, 0, 0] (by decide)
     (by decide),
   decode_error_taxonomy.2.2 [255, 255, 1, 2, 3, 4, 5, 6, 7, 8] (by decide)
     (by decide)⟩

theorem testBit_ge3_false (n : Nat) (hn : n < 8) (i : Nat) (hi : 3 ≤ i) :
    n.testBit i = false := by
  apply Nat.testBit_lt_two_pow
  have h8 : (8 : Nat) ≤ 2 ^ i := by
    calc (8 : Nat) = 2 ^ 3 := by norm_num
    _ ≤ 2 ^ i := Nat.pow_le_pow_right (by norm_num) hi
  omega

theorem advert_byte9 (ok1 ok2 ok3 : Bool)
    (temp hum light mag : sensor_value) :
    (main_loop_advert ok1 ok2 ok3 temp hum light mag).getD 9 0 =
      (if ok1 then 1 else 0) + (if ok2 then 2 else 0) +
        (if ok3 then 4 else 0) := by
  cases ok1 <;> cases ok2 <;> cases ok3 <;> rfl

/-- C5: in every main-loop iteration, the flags byte placed at offset 9 of
the advertisement has bit 0 set iff the Si7021 fetch succeeded, bit 1 set
iff the VEML6035 fetch succeeded, bit 2 set iff the Si7210 fetch
succeeded, and every bit from 3 up clear. -/
theorem advert_flags_bits (ok1 ok2 ok3 : Bool)
    (temp hum light mag : sensor_value) :
    ((main_loop_advert ok1 ok2 ok3 temp hum light mag).getD 9 0).testBit 0
      = ok1 ∧
    ((main_loop_advert ok1 ok2 ok3 temp hum light mag).getD 9 0).testBit 1
      = ok2 ∧
    ((main_loop_advert ok1 ok2 ok3 temp hum light mag).getD 9 0).testBit 2
      = ok3 ∧
    ∀ i : Nat, 3 ≤ i →
      ((main_loop_advert ok1 ok2 ok3 temp hum light mag).getD 9 0).testBit i
        = false := by
  rw [advert_byte9 ok1 ok2 ok3 temp hum light mag]
  refine ⟨?_, ?_, ?_, fun i hi => testBit_ge3_false _ ?_ i hi⟩ <;>
    cases ok1 <;> cases ok2 <;> cases ok3 <;> decide

theorem advert_flags_bits_witness :
    ((main_loop_advert true false true ⟨1, 2⟩ ⟨3, 4⟩ ⟨5, 6⟩ ⟨7, 8⟩).getD 9
      0).testBit 0 = true ∧
    ((main_loop_advert true false true ⟨1, 2⟩ ⟨3, 4⟩ ⟨5, 6⟩ ⟨7, 8⟩).getD 9
      0).testBit 1 = false ∧
    ((main_loop_advert true false true ⟨1, 2⟩ ⟨3, 4⟩ ⟨5, 6⟩ ⟨7, 8⟩).getD 9
      0).testBit 2 = true ∧
    ((main_loop_advert true false true ⟨1, 2⟩ ⟨3, 4⟩ ⟨5, 6⟩ ⟨7, 8⟩).getD 9
      0).testBit 7 = false :=
  ⟨(advert_flags_bits true false true ⟨1, 2⟩ ⟨3, 4⟩ ⟨5, 6⟩ ⟨7, 8⟩).1,
   (advert_flags_bits true false true ⟨1, 2⟩ ⟨3, 4⟩ ⟨5, 6⟩ ⟨7, 8⟩).2.1,
   (advert_flags_bits true false true ⟨1, 2⟩ ⟨3, 4⟩ ⟨5, 6⟩ ⟨7, 8⟩).2.2.1,
   (advert_flags_bits true false true ⟨1, 2⟩ ⟨3, 4⟩ ⟨5, 6⟩ ⟨7, 8⟩).2.2.2 7
     (by decide)⟩

/-- C6: in every main-loop iteration, a field whose flag bit is clear in
the advertisement is encoded as zero bytes: bit 0 clear forces the
temperature bytes (2-3) and humidity byte (4) to zero, bit 1 clear the
illuminance bytes (5-6), bit 2 clear the magnetic-field bytes (7-8). -/
theorem cleared_flag_fields_zero (ok1 ok2 ok3 : Bool)
    (temp hum light mag : sensor_value) :
    (((main_loop_advert ok1 ok2 ok3 temp hum light mag).getD 9 0).testBit 0
        = false →
      (main_loop_advert ok1 ok2 ok3 temp hum light mag).getD 2 0 = 0 ∧
      (main_loop_advert ok1 ok2 ok3 temp hum light mag).getD 3 0 = 0 ∧
      (main_loop_advert ok1 ok2 ok3 temp hum light mag).getD 4 0 = 0) ∧
    (((main_loop_advert ok1 ok2 ok3 temp hum light mag).getD 9 0).testBit 1
        = false →
      (main_loop_advert ok1 ok2 ok3 temp hum light mag).getD 5 0 = 0 ∧
      (main_loop_advert ok1 ok2 ok3 temp hum light mag).getD 6 0 = 0) ∧
    (((main_loop_advert ok1 ok2 ok3 temp hum light mag).getD 9 0).testBit 2
        = false →
      (main_loop_advert ok1 ok2 ok3 temp hum light mag).getD 7 0 = 0 ∧
      (main_loop_advert ok1 ok2 ok3 temp hum light mag).getD 8 0 = 0) := by
  rw [advert_byte9 ok1 ok2 ok3 temp hum light mag]
  cases ok1 <;> cases ok2 <;> cases ok3 <;>
    refine ⟨fun hc => ?_, fun hc => ?_, fun hc => ?_⟩ <;>
    first
      | exact Bool.noConfusion hc
      | exact ⟨rfl, rfl, rfl⟩
      | exact ⟨rfl, rfl⟩
      | exact ⟨rfl, Nat.zero_div 256⟩

theorem cleared_flag_fields_zero_witness :
    (main_loop_advert false false false ⟨1, 2⟩ ⟨3, 4⟩ ⟨5, 6⟩ ⟨7, 8⟩).getD 2 0
      = 0 ∧
    (main_loop_advert false false false ⟨1, 2⟩ ⟨3, 4⟩ ⟨5, 6⟩ ⟨7, 8⟩).getD 3 0
      = 0 ∧
    (main_loop_advert false false false ⟨1, 2⟩ ⟨3, 4⟩ ⟨5, 6⟩ ⟨7, 8⟩).getD 4 0
      = 0 ∧
    (main_loop_advert false false false ⟨1, 2⟩ ⟨3, 4⟩ ⟨5, 6⟩ ⟨7, 8⟩).getD 5 0
      = 0 ∧
    (main_loop_advert false false false ⟨1, 2⟩ ⟨3, 4⟩ ⟨5, 6⟩ ⟨7, 8⟩).getD 6 0
      = 0 ∧
    (main_loop_advert false false false ⟨1, 2⟩ ⟨3, 4⟩ ⟨5, 6⟩ ⟨7, 8⟩).getD 7 0
      = 0 ∧
    (main_loop_advert false false false ⟨1, 2⟩ ⟨3, 4⟩ ⟨5, 6⟩ ⟨7, 8⟩).getD 8 0
      = 0 :=
  ⟨((cleared_flag_fields_zero false false false ⟨1, 2⟩ ⟨3, 4⟩ ⟨5, 6⟩
      ⟨7, 8⟩).1 (by decide)).1,
   ((cleared_flag_fields_zero false false false ⟨1, 2⟩ ⟨3, 4⟩ ⟨5, 6⟩
      ⟨7, 8⟩).1 (by decide)).2.1,
   ((cleared_flag_fields_zero false false false ⟨1, 2⟩ ⟨3, 4⟩ ⟨5, 6⟩
      ⟨7, 8⟩).1 (by decide)).2.2,
   ((cleared_flag_fields_zero false false false ⟨1, 2⟩ ⟨3, 4⟩ ⟨5, 6⟩
      ⟨7, 8⟩).2.1 (by decide)).1,
   ((cleared_flag_fields_zero false false false ⟨1, 2⟩ ⟨3, 4⟩ ⟨5, 6⟩
      ⟨7, 8⟩).2.1 (by decide)).2,
   ((cleared_flag_fields_zero false false false ⟨1, 2⟩ ⟨3, 4⟩ ⟨5, 6⟩
      ⟨7, 8⟩).2.2 (by decide)).1,
   ((cleared_flag_fields_zero false false false ⟨1, 2⟩ ⟨3, 4⟩ ⟨5, 6⟩
      ⟨7, 8⟩).2.2 (by decide)).2⟩

/-- C7: the firmware expression val1 * 100 + (val2 < 0 ? -(-val2 / 10000)
: val2 / 10000) equals the temperature val1 + val2 * 10^-6 expressed in
centi-degrees and truncated toward zero, for every sensor_value whose
parts share a sign with |val2| < 10^6, whenever that value fits in an
int16. -/
theorem temp_conversion_exact (v : sensor_value)
    (hsign : (0 ≤ v.val1 ∧ 0 ≤ v.val2) ∨ (v.val1 ≤ 0 ∧ v.val2 ≤ 0))
    (habs : v.val2.natAbs < 1000000)
    (hlo : -32768 ≤ cdiv (v.val1 * 1000000 + v.val2) 10000)
    (hhi : cdiv (v.val1 * 1000000 + v.val2) 10000 < 32768) :
    temp_centideg v = cdiv (v.val1 * 1000000 + v.val2) 10000 := by
  obtain ⟨a, b⟩ := v
  simp only [temp_centideg, cdiv] at *
  split_ifs with h1 h2 <;> omega

theorem temp_conversion_exact_witness :
    temp_centideg ⟨23, 145678⟩ = cdiv (23 * 1000000 + 145678) 10000 ∧
    temp_centideg ⟨-5, -678999⟩ = cdiv (-5 * 1000000 + -678999) 10000 :=
  ⟨temp_conversion_exact ⟨23, 145678⟩ (by decide) (by decide) (by decide)
     (by decide),
   temp_conversion_exact ⟨-5, -678999⟩ (by decide) (by decide) (by decide)
     (by decide)⟩

/-- The initial contents of the static buffer mfr_data in main.c v0.1.0:
company id 0xFF 0xFF followed by seven zero bytes (no flags slot). -/
def mfr_data_v010 : List Nat := [0xFF, 0xFF, 0, 0, 0, 0, 0, 0, 0]

/-- update_ble from main.c v0.1.0: identical byte stores at offsets 2..8,
with no flags parameter and no byte 9. -/
def update_ble_v010 (ble_ready : Bool) (buf : List Nat) (temp_cdeg : Int)
    (hum : Nat) (lux : Nat) (mag_ut : Int) : List Nat :=
  if ble_ready then
    (((((((buf.set 2 (toUInt8 temp_cdeg)).set 3
        (toUInt8 (asr8 temp_cdeg))).set 4 hum).set 5
        (lux % 256)).set 6 (lux / 256)).set 7
        (toUInt8 mag_ut)).set 8 (toUInt8 (asr8 mag_ut)))
  else
    buf

/-- C9: for identical inputs, the v1.0.0 encoder and the v0.1.0 encoder
write identical bytes at offsets 0 through 8; the v1.0.0 payload differs
only by appending the flags byte at offset 9. -/
theorem payload_extends_v010 (t : Int) (h l : Nat) (m : Int) (f : Nat) :
    (update_ble true mfr_data t h l m f).take 9 =
      update_ble_v010 true mfr_data_v010 t h l m ∧
    (update_ble true mfr_data t h l m f).drop 9 = [f] :=
  ⟨rfl, rfl⟩

/-- C10: the advertised humidity byte is the raw integer part of the
sensor reading reduced modulo 256, with no clamping to 0-100: a reading
of 300 is sent as 44. -/
theorem humidity_wraps_mod256 (ok2 ok3 : Bool)
    (temp hum light mag : sensor_value) :
    (main_loop_advert true ok2 ok3 temp hum light mag).getD 4 0 =
      (hum.val1 % 256).toNat ∧
    (main_loop_advert true false false ⟨0, 0⟩ ⟨300, 0⟩ ⟨0, 0⟩ ⟨0, 0⟩).getD 4
      0 = 44 :=
  ⟨rfl, by decide⟩

/-- Modelled from the spec: the operations observable at the Reading Bus
(host Reading Bus source is not in the repository snapshot): registering a
subscriber identity, removing one, and publishing a Reading. -/
inductive BusEvent where
  | subscribe (id : Nat)
  | unsubscribe (id : Nat)
  | publish (r : Reading)
deriving DecidableEq

/-- Modelled from the spec: the Reading Bus membership map, from
subscriber identity to the sequence of Readings delivered to that
subscriber's private channel so far (none = not registered). -/
def BusState : Type := Nat → Option (List Reading)

/-- Modelled from the spec: one atomic Reading Bus operation.  subscribe
is idempotent per identity and starts a new channel empty (no history
replay); unsubscribe removes the identity (idempotent); publish appends
the Reading to every currently registered channel. -/
def busStep (s : BusState) : BusEvent → BusState
  | BusEvent.subscribe i => fun j => if j = i then some ((s i).getD []) else s j
  | BusEvent.unsubscribe i => fun j => if j = i then none else s j
  | BusEvent.publish r => fun j => (s j).map (fun q => q ++ [r])

/-- Modelled from the spec: the Reading Bus run over a sequence of
atomically interleaved operations (the membership set is guarded by a
single exclusion mechanism, so concurrent calls serialize). -/
def busRun (s : BusState) (tr : List BusEvent) : BusState :=
  tr.foldl busStep s

/-- The Readings published in a trace, in publish order. -/
def publishedReadings (tr : List BusEvent) : List Reading :=
  tr.filterMap (fun e => match e with
    | BusEvent.publish r => some r
    | _ => none)

/-- C8: a subscriber that is registered at the start of a trace and never
unsubscribed during it receives exactly the Readings published in the
trace, each once, appended to its channel in publish order, regardless of
subscribe and unsubscribe activity of other identities. -/
theorem bus_subscriber_receives_all (tr : List BusEvent) (s : BusState)
    (i : Nat) (q : List Reading) (hs : s i = some q)
    (hnu : ∀ e ∈ tr, e ≠ BusEvent.unsubscribe i) :
    busRun s tr i = some (q ++ publishedReadings tr) := by
  induction tr generalizing s q with
  | nil =>
    rw [show (publishedReadings [] : List Reading) = [] from rfl,
      List.append_nil]
    exact hs
  | cons e rest ih =>
    have hrest : ∀ x ∈ rest, x ≠ BusEvent.unsubscribe i :=
      fun x hx => hnu x (List.mem_cons_of_mem _ hx)
    cases e with
    | subscribe j =>
      have hs1 : busStep s (BusEvent.subscribe j) i = some q := by
        simp only [busStep]
        by_cases hj : i = j
        · subst hj
          simp [hs]
        · simp [hj, hs]
      exact ih (busStep s (BusEvent.subscribe j)) q hs1 hrest
    | unsubscribe j =>
      have hij : i ≠ j := by
        intro hij
        subst hij
        exact hnu (BusEvent.unsubscribe i) (List.mem_cons_self _ _) rfl
      have hs1 : busStep s (BusEvent.unsubscribe j) i = some q := by
        simp only [busStep]
        simp [hij, hs]
      exact ih (busStep s (BusEvent.unsubscribe j)) q hs1 hrest
    | publish r =>
      have hs1 : busStep s (BusEvent.publish r) i = some (q ++ [r]) := by
        simp [busStep, hs]
      have hmain := ih (busStep s (BusEvent.publish r)) (q ++ [r]) hs1 hrest
      have hshape :
          some ((q ++ [r]) ++ publishedReadings rest) =
            some (q ++ publishedReadings (BusEvent.publish r :: rest)) := by
        rw [List.append_assoc]
        rfl
      exact hmain.trans hshape

theorem bus_subscriber_receives_all_witness :
    busRun (fun j => if j = 0 then some [] else none)
      [BusEvent.publish ⟨2314, 52, 100, 511, 7⟩, BusEvent.subscribe 1,
       BusEvent.publish ⟨-100, 52, 40000, -511, 5⟩, BusEvent.unsubscribe 1]
      0 =
      some [⟨2314, 52, 100, 511, 7⟩, ⟨-100, 52, 40000, -511, 5⟩] :=
  bus_subscriber_receives_all
    [BusEvent.publish ⟨2314, 52, 100, 511, 7⟩, BusEvent.subscribe 1,
     BusEvent.publish ⟨-100, 52, 40000, -511, 5⟩, BusEvent.unsubscribe 1]
    (fun j => if j = 0 then some [] else none) 0 [] rfl (by decide)
